import Mathlib

/-!
Shallow embedding of the governance core of the blugreen repository:
the intent-contract service (src/backend/app/services/intent_capture.py),
the autonomous execution-loop controller
(src/backend/app/services/autonomous_loop.py) and the workflow step engine
(src/backend/app/workflows/main_workflow.py), together with the data model
in src/backend/app/models.

Conventions of the embedding:
- Python ints (counters, durations, timestamps) are modelled as Int; Python
  floats carrying money (cost ceilings and accumulators) are modelled as Rat
  (exact arithmetic standing for the float values the code manipulates).
- datetime.utcnow() is modelled by an explicit timestamp argument given to
  each operation; one call happens at one timestamp.
- The database session is modelled by explicit state: an ExecutionLoop value
  together with its append-only action and pause ledgers, a Workflow value
  together with its steps.  session.get(Model, id) becomes an Option argument.
- Functions that raise ValueError are modelled with Except String.
- The JSON execution_log / artifacts blobs of ExecutionLoop are not modelled:
  no verified property reads them and the source only ever appends to them.
-/

namespace Blugreen

/-! ## Data model: intent contracts (models/project_intent.py) -/

inductive IntentStatus
  | draft
  | validated
  | frozen
  | completed
  | cancelled
deriving DecidableEq

inductive RiskLevel
  | minimal
  | low
  | medium
  | high
deriving DecidableEq

/-- The string value of the RiskLevel str-enum, as serialized by json.dumps. -/
def riskLevelValue : RiskLevel → String
  | RiskLevel.minimal => "minimal"
  | RiskLevel.low => "low"
  | RiskLevel.medium => "medium"
  | RiskLevel.high => "high"

structure ProjectIntent where
  id : Nat
  status : IntentStatus
  product_name : String
  product_description : String
  business_goal : String
  target_audience : String
  success_criteria : String
  constraints : String
  risk_level : RiskLevel
  main_features : Option String
  validated_at : Option Int
  validated_by : Option String
  frozen_at : Option Int
  intent_hash : Option String
deriving DecidableEq

structure IntentViolation where
  intent_id : Nat
  attempted_action : String
  violated_constraint : String
  violation_details : String
  attempted_by : String
  action_taken : String
deriving DecidableEq

/-! ## String helpers mirroring the Python operations used by the services -/

/-- Python str.lower(), restricted to the ASCII mapping of Char.toLower.
All concrete strings the verified scenarios use are already lowercase. -/
def lowerStr (s : String) : String :=
  String.mk (s.toList.map Char.toLower)

/-- Python substring membership: needle in haystack. -/
def strContains (haystack needle : String) : Bool :=
  go haystack.toList
where
  go : List Char → Bool
    | [] => needle.toList.isPrefixOf []
    | l@(_ :: rest) => needle.toList.isPrefixOf l || go rest

/-- Python str.join over a list of strings. -/
def joinWith (sep : String) : List String → String
  | [] => ""
  | [s] => s
  | s :: rest => s ++ sep ++ joinWith sep rest

/-- json.dumps escaping of the characters that can occur in the modelled
field values (backslash and double quote). -/
def jsonEscape (s : String) : String :=
  String.mk (s.toList.foldr
    (fun c acc => if c = '"' ∨ c = '\\' then '\\' :: c :: acc else c :: acc) [])

def jsonOfStr (s : String) : String :=
  "\"" ++ jsonEscape s ++ "\""

def jsonOfOptStr : Option String → String
  | none => "null"
  | some s => jsonOfStr s

/-! ## IntentCaptureService (services/intent_capture.py) -/

/-- The six required fields checked by validate_intent, in source order,
paired with their values.  Python truthiness on these str fields means a
field is missing exactly when it is the empty string. -/
def required_fields (i : ProjectIntent) : List (String × String) :=
  [("product_name", i.product_name),
   ("product_description", i.product_description),
   ("business_goal", i.business_goal),
   ("target_audience", i.target_audience),
   ("success_criteria", i.success_criteria),
   ("constraints", i.constraints)]

def missing_fields (i : ProjectIntent) : List String :=
  (required_fields i).filterMap fun p => if p.2 = "" then some p.1 else none

/-- IntentCaptureService.validate_intent.  Note: the source performs no
status check at all before re-stamping the intent as VALIDATED. -/
def validate_intent (now : Int) (validated_by : String) (i : ProjectIntent) :
    Except String ProjectIntent :=
  match missing_fields i with
  | [] => Except.ok { i with
      status := IntentStatus.validated,
      validated_at := some now,
      validated_by := some validated_by }
  | ms => Except.error ("Campos obrigatórios faltando: " ++ joinWith ", " ms)

/-- The json.dumps(intent_data, sort_keys=True) serialization performed by
freeze_intent: the eight hashed fields, keys in sorted order. -/
def serialize_intent (i : ProjectIntent) : String :=
  "\x7b\"business_goal\": " ++ jsonOfStr i.business_goal ++
  ", \"constraints\": " ++ jsonOfStr i.constraints ++
  ", \"main_features\": " ++ jsonOfOptStr i.main_features ++
  ", \"product_description\": " ++ jsonOfStr i.product_description ++
  ", \"product_name\": " ++ jsonOfStr i.product_name ++
  ", \"risk_level\": " ++ jsonOfStr (riskLevelValue i.risk_level) ++
  ", \"success_criteria\": " ++ jsonOfStr i.success_criteria ++
  ", \"target_audience\": " ++ jsonOfStr i.target_audience ++ "\x7d"

/-- IntentCaptureService.freeze_intent.  hashlib.sha256(...).hexdigest() is
outside the repository; it enters as the pure function argument hash. -/
def freeze_intent (hash : String → String) (now : Int) (i : ProjectIntent) :
    Except String ProjectIntent :=
  if i.status ≠ IntentStatus.validated then
    Except.error "Só é possível congelar intenções validadas"
  else
    Except.ok { i with
      status := IntentStatus.frozen,
      frozen_at := some now,
      intent_hash := some (hash (serialize_intent i)) }

/-- IntentCaptureService.check_action_against_intent.  Returns the pair the
Python function returns, together with the list of IntentViolation records
the call persists (empty on allow, a single record on deny). -/
def check_action_against_intent (intent : ProjectIntent)
    (action_description attempted_by : String) :
    (Bool × Option String) × List IntentViolation :=
  if intent.status ≠ IntentStatus.frozen then ((true, none), [])
  else
    let c := lowerStr intent.constraints
    let a := lowerStr action_description
    let v1 : List String :=
      if strContains c "não alterar" &&
          (strContains a "alterar" || strContains a "modificar" || strContains a "mudar")
      then ["Tentativa de alterar algo que não pode ser alterado"] else []
    let v2 : List String :=
      if strContains c "não remover" &&
          (strContains a "remover" || strContains a "deletar" || strContains a "excluir")
      then ["Tentativa de remover algo que não pode ser removido"] else []
    let v3 : List String :=
      if decide (intent.risk_level = RiskLevel.minimal) &&
          (strContains a "deploy" || strContains a "produção" ||
           strContains a "publicar" || strContains a "deletar banco")
      then ["Ação de alto risco não permitida (risk_level=" ++
            riskLevelValue intent.risk_level ++ ")"] else []
    match v1 ++ v2 ++ v3 with
    | [] => ((true, none), [])
    | r :: rest =>
      ((false, some r),
       [{ intent_id := intent.id,
          attempted_action := action_description,
          violated_constraint := intent.constraints,
          violation_details := joinWith "; " (r :: rest),
          attempted_by := attempted_by,
          action_taken := "blocked" }])

/-! ## Data model: execution loops (models/execution_loop.py) -/

inductive LoopStatus
  | pending
  | running
  | paused
  | waiting_approval
  | completed
  | cancelled
  | failed
  | limit_reached
deriving DecidableEq

/-- The string value of the LoopStatus str-enum (used in error messages). -/
def loopStatusValue : LoopStatus → String
  | LoopStatus.pending => "pending"
  | LoopStatus.running => "running"
  | LoopStatus.paused => "paused"
  | LoopStatus.waiting_approval => "waiting_approval"
  | LoopStatus.completed => "completed"
  | LoopStatus.cancelled => "cancelled"
  | LoopStatus.failed => "failed"
  | LoopStatus.limit_reached => "limit_reached"

inductive PauseReason
  | iteration_limit
  | time_limit
  | cost_limit
  | action_limit
  | user_request
  | quality_gate_failed
  | intent_violation
  | manual_review_required
deriving DecidableEq

structure ExecutionLoop where
  id : Nat
  project_id : Nat
  intent_id : Nat
  status : LoopStatus
  max_time_minutes : Int
  max_actions : Int
  max_cost_usd : Rat
  max_iterations_before_pause : Int
  elapsed_seconds : Int
  actions_executed : Int
  cost_accumulated_usd : Rat
  iterations_executed : Int
  pause_count : Int
  last_pause_reason : Option PauseReason
  last_pause_at : Option Int
  last_pause_message : Option String
  progress_percentage : Int
  last_action : Option String
  last_action_at : Option Int
  result : Option String
  started_at : Option Int
  completed_at : Option Int
  cancelled_at : Option Int
  deadline : Option Int
deriving DecidableEq

structure LoopAction where
  loop_id : Nat
  action_type : String
  description : String
  agent_name : Option String
  success : Bool
  result : Option String
  error : Option String
  cost_usd : Rat
  duration_seconds : Int
  executed_at : Int
deriving DecidableEq

structure LoopPause where
  loop_id : Nat
  reason : PauseReason
  message : String
  paused_by : String
  action_required : Option String
  paused_at : Int
  resumed_at : Option Int
  user_response : Option String
deriving DecidableEq

/-- An ExecutionLoop row together with its persisted ledgers, in insertion
order (the state the session holds for one loop). -/
structure LoopState where
  loop : ExecutionLoop
  actions : List LoopAction
  pauses : List LoopPause
deriving DecidableEq

/-! ## AutonomousLoopService (services/autonomous_loop.py) -/

/-- AutonomousLoopService.create_loop.  The intent argument is the result of
session.get(ProjectIntent, intent_id); new_id is the primary key the database
assigns to the created row. -/
def create_loop (intent : Option ProjectIntent) (new_id project_id intent_id : Nat)
    (max_time_minutes max_actions : Int) (max_cost_usd : Rat)
    (max_iterations_before_pause : Int) : Except String ExecutionLoop :=
  match intent with
  | none => Except.error "Intenção não encontrada"
  | some i =>
    if i.status ≠ IntentStatus.frozen then
      Except.error "Intenção deve estar congelada antes de criar loop"
    else
      Except.ok {
        id := new_id,
        project_id := project_id,
        intent_id := intent_id,
        status := LoopStatus.pending,
        max_time_minutes := max_time_minutes,
        max_actions := max_actions,
        max_cost_usd := max_cost_usd,
        max_iterations_before_pause := max_iterations_before_pause,
        elapsed_seconds := 0,
        actions_executed := 0,
        cost_accumulated_usd := 0,
        iterations_executed := 0,
        pause_count := 0,
        last_pause_reason := none,
        last_pause_at := none,
        last_pause_message := none,
        progress_percentage := 0,
        last_action := none,
        last_action_at := none,
        result := none,
        started_at := none,
        completed_at := none,
        cancelled_at := none,
        deadline := none }

/-- AutonomousLoopService.start_loop. -/
def start_loop (now : Int) (l : ExecutionLoop) : Except String ExecutionLoop :=
  if l.status ≠ LoopStatus.pending then
    Except.error ("Loop deve estar PENDING para iniciar (status atual: " ++
      loopStatusValue l.status ++ ")")
  else
    Except.ok { l with
      status := LoopStatus.running,
      started_at := some now,
      deadline := some (now + 60 * l.max_time_minutes) }

/-- Checks 2 to 4 of AutonomousLoopService.check_limits (reached when the
time check does not fire). -/
def check_limits_counters (l : ExecutionLoop) :
    Bool × Option PauseReason × Option String :=
  if l.actions_executed ≥ l.max_actions then
    (true, some PauseReason.action_limit,
     some ("Limite de ações atingido (" ++ toString l.max_actions ++ " ações)"))
  else if l.cost_accumulated_usd ≥ l.max_cost_usd then
    (true, some PauseReason.cost_limit,
     some ("Limite de custo atingido ($" ++ toString l.max_cost_usd ++ ")"))
  else if l.iterations_executed > 0 ∧
      l.iterations_executed % l.max_iterations_before_pause = 0 then
    (true, some PauseReason.iteration_limit,
     some ("Pausa obrigatória após " ++ toString l.max_iterations_before_pause ++
       " iterações"))
  else
    (false, none, none)

/-- AutonomousLoopService.check_limits.  The time check only fires when both
started_at and deadline are set (Python truthiness of the datetime fields). -/
def check_limits (now : Int) (l : ExecutionLoop) :
    Bool × Option PauseReason × Option String :=
  match l.started_at, l.deadline with
  | some _, some dl =>
    if now ≥ dl then
      (true, some PauseReason.time_limit,
       some ("Limite de tempo atingido (" ++ toString l.max_time_minutes ++
         " minutos)"))
    else check_limits_counters l
  | _, _ => check_limits_counters l

/-- AutonomousLoopService.pause_loop. -/
def pause_loop (st : LoopState) (reason : PauseReason) (message : String)
    (paused_by : String) (action_required : Option String) (now : Int) :
    Except String LoopState :=
  if st.loop.status ≠ LoopStatus.running then
    Except.error ("Loop deve estar RUNNING para pausar (status atual: " ++
      loopStatusValue st.loop.status ++ ")")
  else
    Except.ok { st with
      loop := { st.loop with
        status := LoopStatus.paused,
        pause_count := st.loop.pause_count + 1,
        last_pause_reason := some reason,
        last_pause_at := some now,
        last_pause_message := some message },
      pauses := st.pauses ++ [{
        loop_id := st.loop.id,
        reason := reason,
        message := message,
        paused_by := paused_by,
        action_required := action_required,
        paused_at := now,
        resumed_at := none,
        user_response := none }] }

/-- The update resume_loop performs on the pause ledger: the first LoopPause
of this loop whose paused_at equals the loop's last_pause_at (the .first()
of the source's select) gets resumed_at stamped and the response attached. -/
def stampFirst (pauses : List LoopPause) (lid : Nat) (t : Int) (r : String)
    (now : Int) : List LoopPause :=
  match pauses with
  | [] => []
  | p :: ps =>
    if p.loop_id = lid ∧ p.paused_at = t then
      { p with resumed_at := some now, user_response := some r } :: ps
    else
      p :: stampFirst ps lid t r now

/-- AutonomousLoopService.resume_loop.  The pause ledger is touched only when
user_response is truthy (present and non-empty) and last_pause_at is set. -/
def resume_loop (st : LoopState) (user_response : Option String) (now : Int) :
    Except String LoopState :=
  if st.loop.status ≠ LoopStatus.paused then
    Except.error ("Loop deve estar PAUSED para resumir (status atual: " ++
      loopStatusValue st.loop.status ++ ")")
  else
    let pauses' :=
      match user_response, st.loop.last_pause_at with
      | some r, some t =>
        if r ≠ "" then stampFirst st.pauses st.loop.id t r now else st.pauses
      | _, _ => st.pauses
    Except.ok { st with
      pauses := pauses',
      loop := { st.loop with status := LoopStatus.running } }

/-- AutonomousLoopService.record_action.  The source performs no status check
whatsoever: the action is appended and the counters updated in every loop
status, and the function cannot fail. -/
def record_action (st : LoopState) (action_type description : String)
    (agent_name : Option String) (success : Bool) (result error : Option String)
    (cost_usd : Rat) (duration_seconds : Int) (now : Int) :
    LoopState × LoopAction :=
  let action : LoopAction := {
    loop_id := st.loop.id,
    action_type := action_type,
    description := description,
    agent_name := agent_name,
    success := success,
    result := result,
    error := error,
    cost_usd := cost_usd,
    duration_seconds := duration_seconds,
    executed_at := now }
  ({ st with
      loop := { st.loop with
        actions_executed := st.loop.actions_executed + 1,
        cost_accumulated_usd := st.loop.cost_accumulated_usd + cost_usd,
        elapsed_seconds := st.loop.elapsed_seconds + duration_seconds,
        last_action := some description,
        last_action_at := some now },
      actions := st.actions ++ [action] },
   action)

/-! ## Data model: workflows (models/workflow.py, models/project.py) -/

inductive WorkflowStatus
  | pending
  | in_progress
  | completed
  | failed
  | rolled_back
deriving DecidableEq

inductive WorkflowStepType
  | interpret_requirement
  | create_plan
  | validate_plan
  | generate_code
  | create_tests
  | run_tests
  | build
  | deploy
  | monitor
  | rollback_step
  | ux_review
  | ui_refinement
  | fetch_repository
  | index_codebase
  | detect_stack
  | run_diagnostics
  | security_review
  | quality_assessment
  | create_baseline
  | create_changeset
  | apply_changes
deriving DecidableEq

inductive ProjectStatus
  | draft
  | planning
  | in_progress
  | testing
  | deploying
  | deployed
  | failed
  | rolled_back
  | terminating
  | terminated
  | deleted
deriving DecidableEq

structure Workflow where
  id : Nat
  name : String
  project_id : Nat
  status : WorkflowStatus
  current_step : Option String
  created_at : Int
  updated_at : Int
  completed_at : Option Int
deriving DecidableEq

structure WorkflowStep where
  id : Nat
  workflow_id : Nat
  step_type : WorkflowStepType
  status : WorkflowStatus
  order : Nat
  input_data : Option String
  output_data : Option String
  error_message : Option String
  started_at : Option Int
  completed_at : Option Int
deriving DecidableEq

/-- The state a MainWorkflow instance works on: its optional workflow row,
the persisted steps of that workflow, and the owning project's status. -/
structure MainWorkflowState where
  workflow : Option Workflow
  steps : List WorkflowStep
  project_status : ProjectStatus
deriving DecidableEq

/-! ## MainWorkflow (workflows/main_workflow.py) -/

def insertByOrder (s : WorkflowStep) : List WorkflowStep → List WorkflowStep
  | [] => [s]
  | t :: ts => if s.order ≤ t.order then s :: t :: ts else t :: insertByOrder s ts

/-- The order_by(WorkflowStep.order) of the step queries. -/
def sortByOrder : List WorkflowStep → List WorkflowStep
  | [] => []
  | s :: ts => insertByOrder s (sortByOrder ts)

/-- MainWorkflow.get_current_step: None when no workflow exists, otherwise
the first step in order whose status is PENDING or IN_PROGRESS. -/
def get_current_step (st : MainWorkflowState) : Option WorkflowStep :=
  match st.workflow with
  | none => none
  | some _ =>
    (sortByOrder st.steps).find? fun s =>
      decide (s.status = WorkflowStatus.pending ∨ s.status = WorkflowStatus.in_progress)

/-- The in-place mutation of one fetched step row, keyed by its primary key. -/
def updateStep (steps : List WorkflowStep) (i : Nat) (s' : WorkflowStep) :
    List WorkflowStep :=
  steps.map fun s => if s.id = i then s' else s

/-- MainWorkflow._handle_failure: a failure at order 0 fails the whole
workflow; a failure at a later step leaves the workflow row untouched. -/
def handle_failure (st : MainWorkflowState) (failed_step : WorkflowStep) :
    MainWorkflowState × String :=
  if failed_step.order > 0 then
    (st, "failed")
  else
    ({ st with workflow := st.workflow.map fun w =>
        { w with status := WorkflowStatus.failed } }, "failed")

/-- MainWorkflow._complete_workflow. -/
def complete_workflow (st : MainWorkflowState) (now : Int) : MainWorkflowState :=
  { st with
    workflow := st.workflow.map fun w =>
      { w with status := WorkflowStatus.completed, completed_at := some now },
    project_status := ProjectStatus.deployed }

/-- MainWorkflow.advance_step.  Returns the new state and the status string
of the returned dict. -/
def advance_step (st : MainWorkflowState) (success : Bool)
    (error_message : Option String) (now : Int) : MainWorkflowState × String :=
  match get_current_step st with
  | none => (st, "completed")
  | some cur =>
    if success then
      let cur' := { cur with
        status := WorkflowStatus.completed, completed_at := some now }
      let st' := { st with steps := updateStep st.steps cur.id cur' }
      match get_current_step st' with
      | none => (complete_workflow st' now, "completed")
      | some _ => (st', "advanced")
    else
      let cur' := { cur with
        status := WorkflowStatus.failed, error_message := error_message }
      let st' := { st with steps := updateStep st.steps cur.id cur' }
      handle_failure st' cur'

/-- MainWorkflow.rollback.  Returns the new state and the status string of
the returned dict. -/
def rollback (st : MainWorkflowState) : MainWorkflowState × String :=
  match st.workflow with
  | none => (st, "error")
  | some w =>
    ({ st with
        workflow := some { w with status := WorkflowStatus.rolled_back },
        project_status := ProjectStatus.rolled_back },
     "rolled_back")

/-! ## Concrete fixtures used by witnesses and counterexamples -/

def exFrozenIntent : ProjectIntent := {
  id := 9,
  status := IntentStatus.frozen,
  product_name := "produto",
  product_description := "descrição",
  business_goal := "objetivo",
  target_audience := "público",
  success_criteria := "critérios",
  constraints := "restrições",
  risk_level := RiskLevel.low,
  main_features := none,
  validated_at := some 1,
  validated_by := some "user",
  frozen_at := some 2,
  intent_hash := some "h" }

def exValidatedIntent : ProjectIntent := { exFrozenIntent with
  status := IntentStatus.validated, frozen_at := none, intent_hash := none }

def exFrozenResult : ProjectIntent := { exValidatedIntent with
  status := IntentStatus.frozen,
  frozen_at := some 3,
  intent_hash := some (serialize_intent exValidatedIntent) }

def c7IntentEnglish : ProjectIntent := { exFrozenIntent with
  constraints := "do not remove the payments endpoint" }

def c7IntentPt : ProjectIntent := { exFrozenIntent with
  constraints := "não remover o endpoint de pagamentos" }

/-- The loop create_loop produces for exFrozenIntent with the default
ceilings (new_id 1, project 2, intent 3). -/
def exPendingLoop : ExecutionLoop := {
  id := 1,
  project_id := 2,
  intent_id := 3,
  status := LoopStatus.pending,
  max_time_minutes := 30,
  max_actions := 50,
  max_cost_usd := 5,
  max_iterations_before_pause := 10,
  elapsed_seconds := 0,
  actions_executed := 0,
  cost_accumulated_usd := 0,
  iterations_executed := 0,
  pause_count := 0,
  last_pause_reason := none,
  last_pause_at := none,
  last_pause_message := none,
  progress_percentage := 0,
  last_action := none,
  last_action_at := none,
  result := none,
  started_at := none,
  completed_at := none,
  cancelled_at := none,
  deadline := none }

/-- A started loop that has simultaneously hit its time limit (deadline 50,
checked at now = 100) and its action limit (50 of 50 actions). -/
def exLoopBothLimits : ExecutionLoop := { exPendingLoop with
  status := LoopStatus.running,
  started_at := some 0,
  deadline := some 50,
  actions_executed := 50 }

/-- A loop in the terminal COMPLETED status. -/
def exCompletedState : LoopState := {
  loop := { exPendingLoop with
    status := LoopStatus.completed,
    completed_at := some 90,
    result := some "done" },
  actions := [],
  pauses := [] }

/-- An open pause (no resumed_at yet), recorded at timestamp 40. -/
def exOpenPause : LoopPause := {
  loop_id := 1,
  reason := PauseReason.user_request,
  message := "revisão",
  paused_by := "user",
  action_required := none,
  paused_at := 40,
  resumed_at := none,
  user_response := none }

/-- A paused loop whose ledger holds exactly the open pause above. -/
def exPausedState : LoopState := {
  loop := { exPendingLoop with
    status := LoopStatus.paused,
    pause_count := 1,
    last_pause_reason := some PauseReason.user_request,
    last_pause_at := some 40,
    last_pause_message := some "revisão",
    started_at := some 0,
    deadline := some 1800 },
  actions := [],
  pauses := [exOpenPause] }

def exStep0 : WorkflowStep := {
  id := 11,
  workflow_id := 5,
  step_type := WorkflowStepType.interpret_requirement,
  status := WorkflowStatus.completed,
  order := 0,
  input_data := none,
  output_data := none,
  error_message := none,
  started_at := some 4,
  completed_at := some 8 }

def exStep1 : WorkflowStep := {
  id := 12,
  workflow_id := 5,
  step_type := WorkflowStepType.create_plan,
  status := WorkflowStatus.pending,
  order := 1,
  input_data := none,
  output_data := none,
  error_message := none,
  started_at := none,
  completed_at := none }

def exWorkflow : Workflow := {
  id := 5,
  name := "Main Workflow - demo",
  project_id := 2,
  status := WorkflowStatus.in_progress,
  current_step := none,
  created_at := 0,
  updated_at := 0,
  completed_at := none }

/-- A two-step workflow whose first step already completed: the current step
is exStep1, sitting at order 1 (mid-pipeline). -/
def exWfState : MainWorkflowState := {
  workflow := some exWorkflow,
  steps := [exStep0, exStep1],
  project_status := ProjectStatus.in_progress }

/-! ## Claims -/

/-- Claim C1: for every call to create a loop whose referenced intent exists,
creation fails if and only if the intent's status is not Frozen; on success
the loop is Pending with elapsed seconds, actions executed, cost accumulated
and iterations executed all zero. -/
theorem C1_create_loop_frozen_gate (i : ProjectIntent) (nid pid iid : Nat)
    (mt ma : Int) (mc : Rat) (mi : Int) :
    ((∃ e, create_loop (some i) nid pid iid mt ma mc mi = Except.error e) ↔
      i.status ≠ IntentStatus.frozen)
    ∧ (∀ l, create_loop (some i) nid pid iid mt ma mc mi = Except.ok l →
        l.status = LoopStatus.pending ∧ l.elapsed_seconds = 0 ∧
        l.actions_executed = 0 ∧ l.cost_accumulated_usd = 0 ∧
        l.iterations_executed = 0) := by
  constructor
  · constructor
    · rintro ⟨e, he⟩ hfr
      simp [create_loop, hfr] at he
    · intro h
      refine ⟨"Intenção deve estar congelada antes de criar loop", ?_⟩
      simp [create_loop, h]
  · intro l hl
    by_cases h : i.status = IntentStatus.frozen
    · simp [create_loop, h] at hl
      subst hl
      exact ⟨rfl, rfl, rfl, rfl, rfl⟩
    · simp [create_loop, h] at hl

/-- Witness for C1: the concrete frozen intent yields the concrete pending
loop with all counters zero. -/
theorem C1_create_loop_frozen_gate_witness :
    create_loop (some exFrozenIntent) 1 2 3 30 50 5 10 = Except.ok exPendingLoop
    ∧ (exPendingLoop.status = LoopStatus.pending ∧
       exPendingLoop.elapsed_seconds = 0 ∧ exPendingLoop.actions_executed = 0 ∧
       exPendingLoop.cost_accumulated_usd = 0 ∧
       exPendingLoop.iterations_executed = 0) :=
  ⟨rfl, (C1_create_loop_frozen_gate exFrozenIntent 1 2 3 30 50 5 10).2
    exPendingLoop rfl⟩

/-- Claim C2 (code at the failing input): record_action on a loop in the
terminal COMPLETED status does not fail with LoopTerminated — the source has
no status check at all: it appends the action and bumps the counters. -/
theorem C2_record_action_on_completed_loop :
    ((record_action exCompletedState "code_generation" "gera código" none
        true none none 1 2 95).1.loop.status = LoopStatus.completed)
    ∧ (record_action exCompletedState "code_generation" "gera código" none
        true none none 1 2 95).1.actions.length = 1
    ∧ (record_action exCompletedState "code_generation" "gera código" none
        true none none 1 2 95).1.loop.actions_executed = 1 := by
  refine ⟨rfl, rfl, ?_⟩
  decide

/-- Claim C3: check_limits reports TimeLimit, never ActionLimit, whenever the
deadline has been reached — even in states where the action ceiling is hit
simultaneously. -/
theorem C3_check_limits_time_priority (now : Int) (l : ExecutionLoop)
    (s dl : Int) (hs : l.started_at = some s) (hd : l.deadline = some dl)
    (htime : now ≥ dl) (_hact : l.actions_executed ≥ l.max_actions) :
    check_limits now l =
      (true, some PauseReason.time_limit,
       some ("Limite de tempo atingido (" ++ toString l.max_time_minutes ++
         " minutos)")) := by
  unfold check_limits
  rw [hs, hd]
  simp [htime]

/-- Witness for C3: a loop that hit both the time and the action ceiling is
reported as TimeLimit. -/
theorem C3_check_limits_time_priority_witness :
    check_limits 100 exLoopBothLimits =
      (true, some PauseReason.time_limit,
       some ("Limite de tempo atingido (" ++
         toString exLoopBothLimits.max_time_minutes ++ " minutos)")) :=
  C3_check_limits_time_priority 100 exLoopBothLimits 0 50 rfl rfl
    (by decide) (by decide)

/-- Claim C4: every record_action call, with success true or false, appends
exactly one LoopAction and increases actionsExecuted by exactly 1,
costAccumulated by exactly the action's cost and elapsedSeconds by exactly
the action's duration. -/
theorem C4_record_action_exact_increments (st : LoopState)
    (aty desc : String) (ag : Option String) (succ : Bool)
    (res err : Option String) (c : Rat) (d : Int) (now : Int) :
    (record_action st aty desc ag succ res err c d now).1.actions =
      st.actions ++ [(record_action st aty desc ag succ res err c d now).2]
    ∧ (record_action st aty desc ag succ res err c d now).1.loop.actions_executed =
      st.loop.actions_executed + 1
    ∧ (record_action st aty desc ag succ res err c d now).1.loop.cost_accumulated_usd =
      st.loop.cost_accumulated_usd + c
    ∧ (record_action st aty desc ag succ res err c d now).1.loop.elapsed_seconds =
      st.loop.elapsed_seconds + d :=
  ⟨rfl, rfl, rfl, rfl⟩

/-- Claim C5: freeze fails iff the contract is not Validated; on success it
stores the hash of the deterministic serialization of the immutable fields
and a freeze timestamp and moves the contract to Frozen, and re-deriving the
hash from the frozen contract's current field values yields exactly the
stored hash.  The sha256 hexdigest enters as the pure function hash. -/
theorem C5_freeze_intent_hash_stable (hash : String → String) (now : Int)
    (i : ProjectIntent) :
    ((∃ e, freeze_intent hash now i = Except.error e) ↔
      i.status ≠ IntentStatus.validated)
    ∧ (∀ i', freeze_intent hash now i = Except.ok i' →
        i'.status = IntentStatus.frozen
        ∧ i'.frozen_at = some now
        ∧ i'.intent_hash = some (hash (serialize_intent i))
        ∧ i'.intent_hash = some (hash (serialize_intent i'))) := by
  constructor
  · constructor
    · rintro ⟨e, he⟩ hv
      simp [freeze_intent, hv] at he
    · intro h
      refine ⟨"Só é possível congelar intenções validadas", ?_⟩
      simp [freeze_intent, h]
  · intro i' hi
    by_cases h : i.status = IntentStatus.validated
    · simp [freeze_intent, h] at hi
      subst hi
      exact ⟨rfl, rfl, rfl, rfl⟩
    · simp [freeze_intent, h] at hi

/-- Witness for C5: freezing the concrete validated intent (with the
identity standing in for the hash function) stores the serialization of the
fields and re-derives to the same value. -/
theorem C5_freeze_intent_hash_stable_witness :
    exFrozenResult.status = IntentStatus.frozen
    ∧ exFrozenResult.frozen_at = some 3
    ∧ exFrozenResult.intent_hash =
        some ((fun s => s) (serialize_intent exValidatedIntent))
    ∧ exFrozenResult.intent_hash =
        some ((fun s => s) (serialize_intent exFrozenResult)) :=
  (C5_freeze_intent_hash_stable (fun s => s) 3 exValidatedIntent).2
    exFrozenResult rfl

/-- Claim C6 (code at the failing input): validate_intent performs no status
check, so called on a Frozen contract whose six required fields are all
non-empty it succeeds and moves the contract back to Validated, re-stamping
validator and timestamp — mutating a Frozen contract instead of failing. -/
theorem C6_validate_intent_mutates_frozen :
    validate_intent 7 "admin" exFrozenIntent =
      Except.ok { exFrozenIntent with
        status := IntentStatus.validated,
        validated_at := some 7,
        validated_by := some "admin" } := by
  rfl

/-- Claim C7 counterexample: with the English constraint text of the claim,
check_action_against_intent allows the action and persists no Violation —
the source matches the Portuguese keywords "não remover" / "remover", so the
claimed result (deny plus one persisted Violation) is false at this input. -/
theorem C7_check_action_counterexample :
    check_action_against_intent c7IntentEnglish "remove payments endpoint"
      "agent-1" = ((true, none), []) := by
  decide

/-- Claim C7 as amended: for a Frozen contract whose constraints text is
"não remover o endpoint de pagamentos", checking the action "remover
endpoint de pagamentos" by "agent-1" returns false together with the reason
"Tentativa de remover algo que não pode ser removido" and persists exactly
one Violation with disposition "blocked". -/
theorem C7_check_action_blocks_removal :
    check_action_against_intent c7IntentPt "remover endpoint de pagamentos"
      "agent-1" =
      ((false, some "Tentativa de remover algo que não pode ser removido"),
       [{ intent_id := c7IntentPt.id,
          attempted_action := "remover endpoint de pagamentos",
          violated_constraint := c7IntentPt.constraints,
          violation_details := "Tentativa de remover algo que não pode ser removido",
          attempted_by := "agent-1",
          action_taken := "blocked" }]) := by
  decide

/-- Claim C8 counterexample: resuming the concrete paused loop with no
userResponse transitions it to Running but leaves the sole open LoopPause
with resumed_at = none — the stamp claimed for every resume call does not
happen when userResponse is absent. -/
theorem C8_resume_counterexample :
    resume_loop exPausedState none 50 =
      Except.ok { exPausedState with
        loop := { exPausedState.loop with status := LoopStatus.running } }
    ∧ exOpenPause.resumed_at = none
    ∧ ({ exPausedState with
          loop := { exPausedState.loop with status := LoopStatus.running } } :
        LoopState).pauses = [exOpenPause] :=
  ⟨rfl, rfl, rfl⟩

/-- stampFirst walks past the pauses that do not match the loop id and the
last-pause timestamp and rewrites exactly the first one that does. -/
theorem stampFirst_split (lid : Nat) (t : Int) (r : String) (now : Int)
    (ps₁ ps₂ : List LoopPause) (p : LoopPause)
    (h1 : ∀ q ∈ ps₁, ¬ (q.loop_id = lid ∧ q.paused_at = t))
    (hp : p.loop_id = lid) (hpt : p.paused_at = t) :
    stampFirst (ps₁ ++ p :: ps₂) lid t r now =
      ps₁ ++ { p with resumed_at := some now, user_response := some r } :: ps₂ := by
  induction ps₁ with
  | nil => simp [stampFirst, hp, hpt]
  | cons q qs ih =>
    have hq : ¬ (q.loop_id = lid ∧ q.paused_at = t) := h1 q (by simp)
    simp only [List.cons_append, stampFirst, if_neg hq, List.cons.injEq, true_and]
    exact ih fun x hx => h1 x (by simp [hx])

/-- Claim C8 as amended: resume fails unless the loop is Paused; on success
it transitions the loop to Running, and only when a non-empty userResponse
is supplied (and the loop carries a last_pause_at) does it stamp resumedAt
and attach the response — on the first recorded LoopPause of this loop whose
pausedAt equals the loop's last_pause_at; with userResponse absent the pause
ledger is left untouched. -/
theorem C8_resume_loop_stamps_only_with_response (st : LoopState) (r : String)
    (now t : Int) (ps₁ ps₂ : List LoopPause) (p : LoopPause)
    (hstatus : st.loop.status = LoopStatus.paused)
    (hlast : st.loop.last_pause_at = some t)
    (hsplit : st.pauses = ps₁ ++ p :: ps₂)
    (hfirst : ∀ q ∈ ps₁, ¬ (q.loop_id = st.loop.id ∧ q.paused_at = t))
    (hp : p.loop_id = st.loop.id) (hpt : p.paused_at = t) (hr : r ≠ "")
    (badStatus : LoopStatus) (hbad : badStatus ≠ LoopStatus.paused) :
    resume_loop st (some r) now =
      Except.ok { st with
        loop := { st.loop with status := LoopStatus.running },
        pauses := ps₁ ++
          { p with resumed_at := some now, user_response := some r } :: ps₂ }
    ∧ resume_loop st none now =
      Except.ok { st with
        loop := { st.loop with status := LoopStatus.running } }
    ∧ resume_loop { st with loop := { st.loop with status := badStatus } }
        (some r) now =
      Except.error ("Loop deve estar PAUSED para resumir (status atual: " ++
        loopStatusValue badStatus ++ ")") := by
  have hcond : ¬ (st.loop.status ≠ LoopStatus.paused) := by simp [hstatus]
  refine ⟨?_, ?_, ?_⟩
  · rw [resume_loop.eq_def, if_neg hcond, hlast]
    simp only [hsplit, hr,
      stampFirst_split st.loop.id t r now ps₁ ps₂ p hfirst hp hpt,
      ne_eq, not_false_eq_true, if_true]
  · rw [resume_loop.eq_def, if_neg hcond]
  · rw [resume_loop.eq_def, if_pos hbad]

/-- Witness for C8: the concrete paused loop, resumed with response "ok" at
time 50, stamps its single open pause; resumed with no response it leaves
the ledger untouched; resuming a running copy fails. -/
theorem C8_resume_loop_stamps_only_with_response_witness :
    resume_loop exPausedState (some "ok") 50 =
      Except.ok { exPausedState with
        loop := { exPausedState.loop with status := LoopStatus.running },
        pauses := [] ++
          { exOpenPause with resumed_at := some 50, user_response := some "ok" } :: [] }
    ∧ resume_loop exPausedState none 50 =
      Except.ok { exPausedState with
        loop := { exPausedState.loop with status := LoopStatus.running } }
    ∧ resume_loop
        { exPausedState with
          loop := { exPausedState.loop with status := LoopStatus.running } }
        (some "ok") 50 =
      Except.error ("Loop deve estar PAUSED para resumir (status atual: " ++
        loopStatusValue LoopStatus.running ++ ")") :=
  C8_resume_loop_stamps_only_with_response exPausedState "ok" 50 40 [] []
    exOpenPause rfl rfl rfl (by simp) rfl rfl (by decide)
    LoopStatus.running (by decide)

/-- Claim C9: rollback on an existing workflow sets the Workflow's status to
RolledBack and leaves the step list — hence every step's status, error text,
payloads and timestamps — exactly as it was. -/
theorem C9_rollback_preserves_steps (st : MainWorkflowState) (w : Workflow)
    (h : st.workflow = some w) :
    (rollback st).1.steps = st.steps
    ∧ (rollback st).1.workflow =
        some { w with status := WorkflowStatus.rolled_back }
    ∧ (rollback st).2 = "rolled_back" := by
  simp [rollback, h]

/-- Witness for C9: rolling back the concrete two-step workflow keeps both
steps identical and marks the workflow RolledBack. -/
theorem C9_rollback_preserves_steps_witness :
    (rollback exWfState).1.steps = exWfState.steps
    ∧ (rollback exWfState).1.workflow =
        some { exWorkflow with status := WorkflowStatus.rolled_back }
    ∧ (rollback exWfState).2 = "rolled_back" :=
  C9_rollback_preserves_steps exWfState exWorkflow rfl

/-- Claim C10: advance with success=false marks the current step Failed with
the error text (leaving every other step in place); if that step's order is
0 the whole workflow is set to Failed, and if the order is positive the
workflow row is left completely unchanged. -/
theorem C10_advance_step_failure_by_position (st : MainWorkflowState)
    (cur : WorkflowStep) (err : Option String) (now : Int)
    (h : get_current_step st = some cur) :
    (advance_step st false err now).2 = "failed"
    ∧ (advance_step st false err now).1.steps =
        updateStep st.steps cur.id
          { cur with status := WorkflowStatus.failed, error_message := err }
    ∧ (∀ s ∈ st.steps, s.id ≠ cur.id → s ∈ (advance_step st false err now).1.steps)
    ∧ (cur.order = 0 →
        (advance_step st false err now).1.workflow =
          st.workflow.map fun w => { w with status := WorkflowStatus.failed })
    ∧ (0 < cur.order → (advance_step st false err now).1.workflow = st.workflow) := by
  have hmem : ∀ s ∈ st.steps, s.id ≠ cur.id →
      s ∈ updateStep st.steps cur.id
        { cur with status := WorkflowStatus.failed, error_message := err } := by
    intro s hs hne
    simp only [updateStep, List.mem_map]
    exact ⟨s, hs, by simp [hne]⟩
  by_cases h0 : cur.order = 0
  · have hres : advance_step st false err now =
        ({ st with
            steps := updateStep st.steps cur.id
              { cur with status := WorkflowStatus.failed, error_message := err },
            workflow := st.workflow.map fun w =>
              { w with status := WorkflowStatus.failed } },
         "failed") := by
      simp [advance_step, h, handle_failure, h0]
    rw [hres]
    exact ⟨rfl, rfl, hmem, fun _ => rfl,
      fun hp => absurd h0 (Nat.pos_iff_ne_zero.mp hp)⟩
  · have hpos : 0 < cur.order := Nat.pos_of_ne_zero h0
    have hres : advance_step st false err now =
        ({ st with
            steps := updateStep st.steps cur.id
              { cur with status := WorkflowStatus.failed, error_message := err } },
         "failed") := by
      simp [advance_step, h, handle_failure, hpos]
    rw [hres]
    exact ⟨rfl, rfl, hmem, fun hz => absurd hz h0, fun _ => rfl⟩

/-- Witness for C10: failing the concrete current step at order 1 marks that
step Failed with the error text and leaves the workflow row unchanged. -/
theorem C10_advance_step_failure_by_position_witness :
    (advance_step exWfState false (some "boom") 77).2 = "failed"
    ∧ (advance_step exWfState false (some "boom") 77).1.steps =
        updateStep exWfState.steps exStep1.id
          { exStep1 with
            status := WorkflowStatus.failed
            error_message := some "boom" }
    ∧ (advance_step exWfState false (some "boom") 77).1.workflow =
        exWfState.workflow :=
  have h := C10_advance_step_failure_by_position exWfState exStep1
    (some "boom") 77 (by decide)
  ⟨h.1, h.2.1, h.2.2.2.2 (by decide)⟩

end Blugreen
